import Mathlib

/-!
Verification development for the pulsy store engine (src/pulsy.ts, the
current module exported by the package index: envelope persistence,
namespaced keys, createSetter, setStoreValue, clearPersistedStores).

Modelling conventions, stated once:
- JS runtime values are modelled by the inductive Val (numbers, strings,
  booleans, null/undefined collapsed to vnull, and plain objects as
  ordered field lists). JS reference inequality on committed values is
  modelled by structural inequality via Val.beq.
- The global mutable module state (the stores map, the storage backend,
  the configuration) is threaded explicitly as a State value. The
  storage backend is the single configured key-value backend
  (localStorage by default); a custom storage option selects the same
  modelled backend.
- Subscriber callbacks (the reloaders set of a store) are
  defunctionalised: an external UI callback is an opaque id whose
  invocations are recorded in an event log; the recompute callback
  registered by createComputedStore and the diff-and-recombine callback
  registered by composeStores are represented by first-order tags and
  interpreted by runReloader. Compute functions are kept in an
  environment list indexed by the tag.
- Asynchronous middleware is awaited sequentially by the source, so the
  chain is modelled as a left fold of functions returning Except, where
  an error models a thrown exception or rejected promise.
- Notification cascades are executed with explicit fuel bounding the
  nesting depth of derived-store reactions; every claim is proved with
  enough fuel for the cascades it involves.
- devTools logging, performance marks and the optional onStoreCreate and
  onStoreUpdate hooks are diagnostics with no effect on the store
  engine; they are not modelled.
-/

namespace Pulsy

/-- JS values: numbers (naturals suffice for every claim), strings,
booleans, null/undefined, and plain objects as ordered field lists. -/
inductive Val where
  | vnat : Nat → Val
  | vstr : String → Val
  | vbool : Bool → Val
  | vnull : Val
  | vobj : List (String × Val) → Val

instance : Inhabited Val := ⟨Val.vnull⟩

mutual

/-- Structural equality test on Val, modelling the JS strict equality
used by the source (reference equality on objects is approximated by
structural equality, which the diff reasoning only ever uses on values
that were copied around unchanged). -/
def Val.beq : Val → Val → Bool
  | .vnat a, .vnat b => a == b
  | .vstr a, .vstr b => a == b
  | .vbool a, .vbool b => a == b
  | .vnull, .vnull => true
  | .vobj fs, .vobj gs => Val.beqFields fs gs
  | _, _ => false

/-- Field-list equality for Val.beq. -/
def Val.beqFields : List (String × Val) → List (String × Val) → Bool
  | [], [] => true
  | (k, v) :: fs, (l, w) :: gs => k == l && Val.beq v w && Val.beqFields fs gs
  | _, _ => false

end

instance : BEq Val := ⟨Val.beq⟩

/-- A middleware stage: (nextValue, prevValue, storeName) to a value or a
thrown exception / rejected promise, modelled as Except. -/
abbrev Middleware := Val → Val → String → Except String Val

/-- Persistence options. The storage, serialize and deserialize fields of
the source select the backend and the JSON codec; the model fixes both
(the single modelled backend, structural envelopes), so only version and
migrate are carried. -/
structure PersistenceOptions where
  version : Option Nat
  migrate : Option (Val → Nat → Val)

/-- The persistence options object with no fields set. -/
def emptyPersistenceOptions : PersistenceOptions := ⟨none, none⟩

/-- What a backend setItem call wrote: either the serialized envelope
with value and version fields written by persistStore, or a bare
JSON.stringify of a value (the un-enveloped write done by the action
dispatcher). -/
inductive StorageEntry where
  | envelope : Val → Nat → StorageEntry
  | bare : Val → StorageEntry

/-- A defunctionalised subscriber callback held in a reloaders set. -/
inductive Reloader where
  | external : Nat → Reloader
  | computed : String → Nat → Reloader
  | composed : String → List (String × String) → List (String × Val) → Reloader
deriving BEq

/-- The persist field of a store record: absent or false, the boolean
true, or a persistence options object. -/
inductive PersistSetting where
  | noP : PersistSetting
  | boolP : PersistSetting
  | optsP : PersistenceOptions → PersistSetting

/-- A store record, as held in the stores map. -/
structure StoreRec where
  value : Val
  reloaders : List Reloader
  middleware : List Middleware
  memoize : Bool
  persist : PersistSetting

/-- The global pulsy configuration (the fields the store engine reads;
undefined boolean flags are collapsed to false, matching JS
truthiness at every use site). -/
structure PulsyConfig where
  persist : Bool
  defaultMemoize : Bool

abbrev Registry := List (String × StoreRec)
abbrev Storage := List (String × StorageEntry)

/-- The threaded module state: the stores map, the storage backend, the
log of external subscriber invocations, and the configuration. -/
structure State where
  stores : Registry
  storage : Storage
  events : List (Nat × Val)
  config : PulsyConfig

/-- Lookup in an association list keyed by strings (models Map.get and
backend getItem). -/
def assocFind {α : Type} (l : List (String × α)) (k : String) : Option α :=
  match l with
  | [] => none
  | (k2, v) :: rest => if k2 = k then some v else assocFind rest k

/-- Insert-or-replace in an association list (models Map.set and backend
setItem: replaces in place, otherwise appends). -/
def assocSet {α : Type} (l : List (String × α)) (k : String) (v : α) : List (String × α) :=
  match l with
  | [] => [(k, v)]
  | (k2, v2) :: rest => if k2 = k then (k, v) :: rest else (k2, v2) :: assocSet rest k v

/-- Set.add on a reloaders set: appends unless an equal callback is
already registered. -/
def addReloader (rs : List Reloader) (r : Reloader) : List Reloader :=
  if rs.contains r then rs else rs ++ [r]

/-- The version number persistStore writes: options.version, or 1 when
that field is absent or 0 (JS falsiness of 0 under the or-default). -/
def writtenVersion (options : PersistenceOptions) : Nat :=
  match options.version with
  | some v => if v = 0 then 1 else v
  | none => 1

/-- Transcribes persistStore: serializes the envelope with the value and
version fields to the namespaced key made of the fixed literal and the
store name. Serialization of modelled values is total, so the catch
branch is dead. -/
def persistStore (name : String) (value : Val) (options : PersistenceOptions)
    (st : Storage) : Storage :=
  assocSet st ("pulsy_" ++ name) (.envelope value (writtenVersion options))

/-- Result of a retrieval: the recovered value if any, the possibly
updated storage (migration re-persists), and an instrumentation bit
recording whether the migrate function was invoked. -/
structure RetrieveResult where
  value : Option Val
  storage : Storage
  migrateInvoked : Bool

/-- Transcribes retrievePersistedStore: reads the envelope at the
namespaced key; with the defaults merged in, the effective requested
version is options.version or 1 when absent. Migration runs when the
effective version is truthy (nonzero), the stored version differs from
it, and a migrate function is supplied; the migrated value is
re-persisted with the options updated to the effective version. A bare
(un-enveloped) entry deserializes to a value with no value field, so the
function returns no value for it. -/
def retrievePersistedStore (name : String) (options : PersistenceOptions)
    (st : Storage) : RetrieveResult :=
  let effVersion : Nat := options.version.getD 1
  match assocFind st ("pulsy_" ++ name) with
  | none => ⟨none, st, false⟩
  | some (.bare _) => ⟨none, st, false⟩
  | some (.envelope v storedVersion) =>
    match options.migrate with
    | some migrate =>
      if effVersion ≠ 0 ∧ storedVersion ≠ effVersion then
        let v2 := migrate v storedVersion
        let st2 := persistStore name v2 { options with version := some effVersion } st
        ⟨some v2, st2, true⟩
      else ⟨some v, st, false⟩
    | none => ⟨some v, st, false⟩

/-- Options accepted by createStore. -/
structure CreateOptions where
  persist : Option (Bool ⊕ PersistenceOptions)
  middleware : List Middleware
  memoize : Option Bool

/-- createStore called with no options object. -/
def defaultCreateOptions : CreateOptions := ⟨none, [], none⟩

/-- JS truthiness of the persist option: true or an options object. -/
def persistTruthy : Option (Bool ⊕ PersistenceOptions) → Bool
  | some (.inl b) => b
  | some (.inr _) => true
  | none => false

/-- The object-valued persistence options of a createStore call: the
persist option itself when it is an options object, else the empty
object. -/
def createPersistOptions (options : CreateOptions) : PersistenceOptions :=
  match options.persist with
  | some (.inr o) => o
  | _ => emptyPersistenceOptions

/-- Transcribes createStore: resolves the object-valued persistence
options, computes the effective persistence setting as the first truthy
of the persist option and the global persist flag, rehydrates when
persistence is enabled (the persisted value wins when present),
unconditionally installs the record in the stores map (note: no
existence check; an existing record is replaced), and persists the
resolved value when persistence is enabled. The stored persist field is
the first truthy operand itself, as in the source. -/
def createStore (s : State) (name : String) (initialValue : Val)
    (options : CreateOptions) : State :=
  let persistOptions : PersistenceOptions := createPersistOptions options
  let shouldPersist : Bool := persistTruthy options.persist || s.config.persist
  let retrieved : RetrieveResult :=
    if shouldPersist then retrievePersistedStore name persistOptions s.storage
    else ⟨none, s.storage, false⟩
  let value : Val := retrieved.value.getD initialValue
  let record : StoreRec :=
    { value := value
      reloaders := []
      middleware := options.middleware
      memoize := options.memoize.getD s.config.defaultMemoize
      persist :=
        match options.persist with
        | some (.inr o) => .optsP o
        | some (.inl true) => .boolP
        | _ => if s.config.persist then .boolP else .noP }
  let storage2 : Storage :=
    if shouldPersist then persistStore name value persistOptions retrieved.storage
    else retrieved.storage
  { s with stores := assocSet s.stores name record, storage := storage2 }

/-- Transcribes getStoreValue: throws when the store does not exist. -/
def getStoreValue (s : State) (name : String) : Except String Val :=
  match assocFind s.stores name with
  | none => .error ("Store with name " ++ name ++ " does not exist.")
  | some store => .ok store.value

/-- Transcribes addMiddleware: throws when the store does not exist,
otherwise appends the stage to the chain. -/
def addMiddleware (s : State) (name : String) (m : Middleware) :
    Except String State :=
  match assocFind s.stores name with
  | none => .error ("Store with name " ++ name ++ " does not exist.")
  | some store =>
    let store2 := { store with middleware := store.middleware ++ [m] }
    .ok { s with stores := assocSet s.stores name store2 }

/-- The sequential middleware loop of the setter: each stage receives the
accumulated value, the value the store held before the call, and the
store name; a thrown exception aborts the remaining stages. -/
def applyChain (ms : List Middleware) (v : Val) (prevValue : Val)
    (name : String) : Except String Val :=
  match ms with
  | [] => .ok v
  | m :: rest =>
    match m v prevValue name with
    | .error e => .error e
    | .ok v2 => applyChain rest v2 prevValue name

/-- The environment interpreting the compute tags of defunctionalised
computed-store callbacks. -/
abbrev ComputeEnv := List (Registry → Val)

/-- Interprets one subscriber callback. An external callback only records
its invocation. A computed tag transcribes updateComputedStore: it
recomputes from the current registry, writes the target store value
directly and notifies the target subscribers; it never touches the
storage backend. A composed tag transcribes updateComposedStore: it
rebuilds the aggregate from the current constituent values, compares
each against the creation-time snapshot carried by the registration, and
only on some difference writes the aggregate store value and notifies
its subscribers. The fuel bounds cascade nesting. -/
def runReloader (env : ComputeEnv) : Nat → Reloader → Val → State → State
  | 0, _, _, s => s
  | _ + 1, .external id, v, s => { s with events := s.events ++ [(id, v)] }
  | fuel + 1, .computed target fnId, _, s =>
    let newValue : Val := (env.getD fnId (fun _ => .vnull)) s.stores
    match assocFind s.stores target with
    | none => s
    | some store =>
      let s1 := { s with stores := assocSet s.stores target { store with value := newValue } }
      store.reloaders.foldl (fun acc r => runReloader env fuel r newValue acc) s1
  | fuel + 1, .composed target storeMap snapshot, _, s =>
    let entries : List (String × Val) := storeMap.filterMap (fun kv =>
      (assocFind s.stores kv.2).map (fun store => (kv.1, store.value)))
    let hasChanges : Bool := entries.any (fun kv =>
      match assocFind snapshot kv.1 with
      | some old => !(Val.beq kv.2 old)
      | none => true)
    if hasChanges then
      match assocFind s.stores target with
      | none => s
      | some store =>
        let newValue : Val := .vobj entries
        let s1 := { s with stores := assocSet s.stores target { store with value := newValue } }
        store.reloaders.foldl (fun acc r => runReloader env fuel r newValue acc) s1
    else s

/-- Runs a reloaders set in registration order. -/
def runReloaders (env : ComputeEnv) (fuel : Nat) (rs : List Reloader) (v : Val)
    (s : State) : State :=
  rs.foldl (fun acc r => runReloader env fuel r v acc) s

/-- The argument of a setter call: a literal next value or an updater
function of the previous value. -/
inductive SetArg where
  | lit : Val → SetArg
  | upd : (Val → Val) → SetArg

/-- Transcribes the function returned by createSetter: a missing store is
a silent no-op; otherwise the candidate is resolved, folded through the
middleware chain (a thrown stage is caught: no commit, no notification,
the returned promise still resolves, modelled by totality), the result
is committed, subscribers are notified, and when the persist field is
truthy the committed value is re-persisted using the object-valued
options when the field holds them. -/
def createSetter (env : ComputeEnv) (fuel : Nat) (name : String) (arg : SetArg)
    (s : State) : State :=
  match assocFind s.stores name with
  | none => s
  | some store =>
    let candidate : Val := match arg with
      | .lit v => v
      | .upd f => f store.value
    match applyChain store.middleware candidate store.value name with
    | .error _ => s
    | .ok updatedValue =>
      let s1 := { s with stores := assocSet s.stores name { store with value := updatedValue } }
      let s2 := runReloaders env fuel store.reloaders updatedValue s1
      match store.persist with
      | .noP => s2
      | .boolP =>
        { s2 with storage := persistStore name updatedValue emptyPersistenceOptions s2.storage }
      | .optsP o =>
        { s2 with storage := persistStore name updatedValue o s2.storage }

/-- Transcribes setStoreValue: builds the setter and applies it to the
literal value. -/
def setStoreValue (env : ComputeEnv) (fuel : Nat) (name : String) (v : Val)
    (s : State) : State :=
  createSetter env fuel name (.lit v) s

/-- Transcribes the body of a dispatch function produced by
createActions: throws when the store does not exist; otherwise applies
the handler to the current value and the action record, writes the new
state directly (no middleware), notifies subscribers, and when the
persist field is truthy writes the bare serialized state at the
un-prefixed store name key, as the source does with
localStorage.setItem(storeName, JSON.stringify(newState)). Returns the
action record. -/
def actionDispatch (env : ComputeEnv) (fuel : Nat) (storeName : String)
    (handler : Val → String → Option Val → Val) (ty : String)
    (payload : Option Val) (s : State) :
    Except String (State × String × Option Val) :=
  match assocFind s.stores storeName with
  | none => .error ("Store with name " ++ storeName ++
      " does not exist. Please ensure the store is initialized before dispatching actions.")
  | some store =>
    let newState : Val := handler store.value ty payload
    let s1 := { s with stores := assocSet s.stores storeName { store with value := newState } }
    let s2 := runReloaders env fuel store.reloaders newState s1
    let s3 := match store.persist with
      | .noP => s2
      | _ => { s2 with storage := assocSet s2.storage storeName (.bare newState) }
    .ok (s3, ty, payload)

/-- Models the subscription performed by the usePulsy effect: adds an
external callback to the reloaders set of an existing store. -/
def subscribe (s : State) (name : String) (id : Nat) : State :=
  match assocFind s.stores name with
  | none => s
  | some store =>
    let store2 := { store with reloaders := addReloader store.reloaders (.external id) }
    { s with stores := assocSet s.stores name store2 }

/-- One step of the dependency registration loop of createComputedStore:
adds the recompute callback to the reloaders set of the dependency store
when it exists. -/
def registerComputed (name : String) (fnId : Nat) (acc : State)
    (depName : String) : State :=
  match assocFind acc.stores depName with
  | none => acc
  | some depStore =>
    let dep2 := { depStore with reloaders := addReloader depStore.reloaders (.computed name fnId) }
    { acc with stores := assocSet acc.stores depName dep2 }

/-- Transcribes createComputedStore: evaluates the compute function on
the current registry, creates the backing store with no options, then
registers the recompute callback on each dependency store that exists. -/
def createComputedStore (env : ComputeEnv) (s : State) (name : String)
    (fnId : Nat) (dependencies : List String) : State :=
  let computedValue : Val := (env.getD fnId (fun _ => .vnull)) s.stores
  let s1 := createStore s name computedValue defaultCreateOptions
  dependencies.foldl (registerComputed name fnId) s1

/-- Transcribes the creation part of composeStores: snapshots the current
values of the existing constituents keyed by the logical field names,
creates the aggregate store from that object with no options, and
registers the diff-and-recombine callback (carrying the map and the
creation-time snapshot) on each existing constituent. -/
def composeStores (s : State) (name : String)
    (storeMap : List (String × String)) : State :=
  let composedValue : List (String × Val) := storeMap.filterMap (fun kv =>
    (assocFind s.stores kv.2).map (fun store => (kv.1, store.value)))
  let s1 := createStore s name (.vobj composedValue) defaultCreateOptions
  storeMap.foldl (fun acc kv =>
    match assocFind acc.stores kv.2 with
    | none => acc
    | some store =>
      let st2 := { store with reloaders := addReloader store.reloaders (.composed name storeMap composedValue) }
      { acc with stores := assocSet acc.stores kv.2 st2 }) s1

/-- Transcribes the setter returned by composeStores: for each update
entry whose key is in the map, writes the matching constituent store
value directly (no middleware, no persistence) and notifies that
constituent subscribers with the written value; unknown keys and missing
constituents are skipped. -/
def setComposedStore (env : ComputeEnv) (fuel : Nat)
    (storeMap : List (String × String)) (updates : List (String × Val))
    (s : State) : State :=
  updates.foldl (fun acc kv =>
    match assocFind storeMap kv.1 with
    | none => acc
    | some srcName =>
      match assocFind acc.stores srcName with
      | none => acc
      | some store =>
        let s1 := { acc with stores := assocSet acc.stores srcName { store with value := kv.2 } }
        runReloaders env fuel store.reloaders kv.2 s1) s

/-- The private state of one useTimeTravel wrapper: the history list and
the cursor position. -/
structure TimeTravel where
  history : List Val
  position : Nat

/-- The wrapper state on first render: history holds the current store
value, the cursor sits on it. -/
def TimeTravel.init (value : Val) : TimeTravel := ⟨[value], 0⟩

/-- An operation on a time-travel wrapper. -/
inductive TTOp where
  | set : Val → TTOp
  | undo : TTOp
  | redo : TTOp

/-- Transcribes the updateValue, undo and redo callbacks of
useTimeTravel. The second component is the value forwarded to the
underlying store setter, when any. updateValue truncates the history to
the positions up to the cursor, appends the resolved value and advances
the cursor; undo and redo move the cursor and replay the history entry
at the new cursor, and are no-ops at the respective boundary. -/
def ttStep (t : TimeTravel) : TTOp → TimeTravel × Option Val
  | .set v =>
    (⟨t.history.take (t.position + 1) ++ [v], t.position + 1⟩, some v)
  | .undo =>
    if t.position > 0 then
      let p := t.position - 1
      (⟨t.history, p⟩, some (t.history.getD p .vnull))
    else (t, none)
  | .redo =>
    if t.position < t.history.length - 1 then
      let p := t.position + 1
      (⟨t.history, p⟩, some (t.history.getD p .vnull))
    else (t, none)

/-- Runs a time-travel operation against the wrapper and forwards the
replayed or applied value, if any, through the underlying store setter. -/
def ttRunStore (env : ComputeEnv) (fuel : Nat) (name : String) :
    TimeTravel × State → TTOp → TimeTravel × State :=
  fun ts op =>
    let r := ttStep ts.1 op
    match r.2 with
    | some v => (r.1, setStoreValue env fuel name v ts.2)
    | none => (r.1, ts.2)

/-- The wrapper invariant: the cursor is a valid history index. -/
def ttInvariant (t : TimeTravel) : Prop := t.position < t.history.length

/-- The default configuration: dev tools aside, no global persistence and
no default memoization. -/
def defaultConfig : PulsyConfig := ⟨false, false⟩

/-- The module state at load: empty stores map, empty backend, no
recorded events. -/
def initialState : State := ⟨[], [], [], defaultConfig⟩

/-- Reads a store value from a registry, as a compute function does
through getStoreValue; in every modelled scenario the store exists. -/
def regValue (reg : Registry) (name : String) : Val :=
  match assocFind reg name with
  | some store => store.value
  | none => .vnull

/-! ### Lemmas about the embedding -/

/-- The pure stage functions of a middleware chain that never throws. -/
def pureMiddleware (f : Val → Val → String → Val) : Middleware :=
  fun v prevValue name => .ok (f v prevValue name)

/-- The left-to-right fold described by the middleware ordering claim:
each stage output becomes the next stage input, with the pre-call value
and the store name fixed across the chain. -/
def chainFold (fs : List (Val → Val → String → Val)) (v prevValue : Val)
    (name : String) : Val :=
  fs.foldl (fun acc f => f acc prevValue name) v

/-- The ids of a reloaders set consisting solely of external subscriber
callbacks, or none when the set contains a derived-store callback. -/
def externalIds : List Reloader → Option (List Nat)
  | [] => some []
  | .external i :: rs => (externalIds rs).map (fun l => i :: l)
  | _ :: _ => none

theorem assocFind_assocSet_self {α : Type} (l : List (String × α)) (k : String) (v : α) :
    assocFind (assocSet l k v) k = some v := by
  induction l with
  | nil => simp [assocSet, assocFind]
  | cons hd tl ih =>
    obtain ⟨k2, v2⟩ := hd
    by_cases h : k2 = k
    · simp [assocSet, assocFind, h]
    · simp [assocSet, assocFind, h, ih]

theorem assocFind_assocSet_ne {α : Type} (l : List (String × α)) (k k2 : String) (v : α)
    (h : k ≠ k2) : assocFind (assocSet l k v) k2 = assocFind l k2 := by
  induction l with
  | nil => simp [assocSet, assocFind, h]
  | cons hd tl ih =>
    obtain ⟨k3, v3⟩ := hd
    by_cases h2 : k3 = k
    · subst h2; simp [assocSet, assocFind, h]
    · simp [assocSet, assocFind, h2, ih]

theorem runReloaders_nil (env : ComputeEnv) (fuel : Nat) (v : Val) (s : State) :
    runReloaders env fuel [] v s = s := rfl

theorem runReloaders_cons (env : ComputeEnv) (fuel : Nat) (r : Reloader)
    (rs : List Reloader) (v : Val) (s : State) :
    runReloaders env fuel (r :: rs) v s =
      runReloaders env fuel rs v (runReloader env fuel r v s) := rfl

theorem runReloaders_append (env : ComputeEnv) (fuel : Nat) (rs1 rs2 : List Reloader)
    (v : Val) (s : State) :
    runReloaders env fuel (rs1 ++ rs2) v s =
      runReloaders env fuel rs2 v (runReloaders env fuel rs1 v s) := by
  simp [runReloaders, List.foldl_append]

theorem runReloaders_external (env : ComputeEnv) (fuel : Nat) (rs : List Reloader) :
    ∀ (ids : List Nat) (v : Val) (s : State),
    externalIds rs = some ids →
    runReloaders env (fuel + 1) rs v s =
      { s with events := s.events ++ ids.map (fun i => (i, v)) } := by
  induction rs with
  | nil =>
    intro ids v s h
    simp [externalIds] at h
    subst h
    simp [runReloaders_nil]
  | cons hd tl ih =>
    intro ids v s h
    cases hd with
    | external i =>
      rw [externalIds] at h
      cases htl : externalIds tl with
      | none => rw [htl] at h; cases h
      | some l =>
        rw [htl] at h
        simp at h
        subst h
        rw [runReloaders_cons]
        have h1 : runReloader env (fuel + 1) (.external i) v s =
            { s with events := s.events ++ [(i, v)] } := rfl
        rw [h1, ih l v _ htl]
        simp
    | computed a b => simp [externalIds] at h
    | composed a b c => simp [externalIds] at h

theorem runReloader_storage (env : ComputeEnv) :
    ∀ (fuel : Nat) (r : Reloader) (v : Val) (s : State),
    (runReloader env fuel r v s).storage = s.storage := by
  intro fuel
  induction fuel with
  | zero => intro r v s; rfl
  | succ n ih =>
    have hfold : ∀ (rs : List Reloader) (w : Val) (t : State),
        (rs.foldl (fun acc r => runReloader env n r w acc) t).storage = t.storage := by
      intro rs
      induction rs with
      | nil => intro w t; rfl
      | cons hd tl ihl =>
        intro w t
        rw [List.foldl_cons, ihl, ih]
    intro r v s
    cases r with
    | external i => rfl
    | computed target fid =>
      simp only [runReloader]
      split
      · rfl
      · rw [hfold]
    | composed target storeMap snapshot =>
      simp only [runReloader]
      split
      · split
        · rfl
        · rw [hfold]
      · rfl

theorem runReloaders_storage (env : ComputeEnv) (fuel : Nat) (rs : List Reloader)
    (v : Val) : ∀ (s : State), (runReloaders env fuel rs v s).storage = s.storage := by
  induction rs with
  | nil => intro s; rfl
  | cons hd tl ih =>
    intro s
    rw [runReloaders_cons, ih, runReloader_storage]

theorem applyChain_append (xs ys : List Middleware) (prevValue : Val) (name : String) :
    ∀ (v : Val), applyChain (xs ++ ys) v prevValue name =
      (match applyChain xs v prevValue name with
       | .ok w => applyChain ys w prevValue name
       | .error e => .error e) := by
  induction xs with
  | nil => intro v; rfl
  | cons m xs ih =>
    intro v
    show applyChain (m :: (xs ++ ys)) v prevValue name = _
    cases h : m v prevValue name with
    | error e => simp [applyChain, h]
    | ok v2 => simp [applyChain, h, ih]

theorem applyChain_pure (fs : List (Val → Val → String → Val)) (prevValue : Val)
    (name : String) : ∀ (v : Val),
    applyChain (fs.map pureMiddleware) v prevValue name =
      .ok (chainFold fs v prevValue name) := by
  induction fs with
  | nil => intro v; rfl
  | cons f fs ih =>
    intro v
    simp [applyChain, pureMiddleware, chainFold, List.foldl_cons]
    have := ih (f v prevValue name)
    simp [chainFold] at this
    exact this

theorem retrievePersistedStore_frame (name : String) (options : PersistenceOptions)
    (st : Storage) (k : String) (h : k ≠ "pulsy_" ++ name) :
    assocFind (retrievePersistedStore name options st).storage k = assocFind st k := by
  rw [retrievePersistedStore]
  split
  · rfl
  · rfl
  · split
    · split
      · simp only [persistStore]
        rw [assocFind_assocSet_ne _ _ _ _ (Ne.symm h)]
      · rfl
    · rfl

theorem registerComputed_value (name2 : String) (fnId : Nat) (acc : State)
    (depName x : String) :
    (assocFind (registerComputed name2 fnId acc depName).stores x).map (fun r => r.value) =
      (assocFind acc.stores x).map (fun r => r.value) := by
  rw [registerComputed]
  cases h : assocFind acc.stores depName with
  | none => rfl
  | some depStore =>
    by_cases hx : depName = x
    · subst hx
      simp [assocFind_assocSet_self, h]
    · simp [assocFind_assocSet_ne _ _ _ _ hx]

theorem registerComputedFold_value (name2 : String) (fnId : Nat) (deps : List String) :
    ∀ (acc : State) (x : String),
    (assocFind ((deps.foldl (registerComputed name2 fnId) acc).stores) x).map (fun r => r.value) =
      (assocFind acc.stores x).map (fun r => r.value) := by
  induction deps with
  | nil => intro acc x; rfl
  | cons d ds ih =>
    intro acc x
    rw [List.foldl_cons, ih, registerComputed_value]

theorem ttInvariant_init (v : Val) : ttInvariant (TimeTravel.init v) := by
  simp [ttInvariant, TimeTravel.init]

theorem ttInvariant_step (t : TimeTravel) (op : TTOp) (h : ttInvariant t) :
    ttInvariant (ttStep t op).1 := by
  cases op with
  | set v =>
    simp [ttInvariant, ttStep, List.length_take] at h ⊢
    omega
  | undo =>
    rw [ttStep]
    split
    · simp [ttInvariant] at h ⊢
      omega
    · exact h
  | redo =>
    rw [ttStep]
    split
    · next hlt =>
      simp [ttInvariant] at h ⊢
      omega
    · exact h

theorem ttInvariant_run (v : Val) (ops : List TTOp) :
    ttInvariant (ops.foldl (fun a op => (ttStep a op).1) (TimeTravel.init v)) := by
  have main : ∀ (l : List TTOp) (t : TimeTravel), ttInvariant t →
      ttInvariant (l.foldl (fun a op => (ttStep a op).1) t) := by
    intro l
    induction l with
    | nil => intro t h; exact h
    | cons op ops ih =>
      intro t h
      rw [List.foldl_cons]
      exact ih _ (ttInvariant_step t op h)
  exact main ops _ (ttInvariant_init v)

/-! ### Claims C1 to C4 -/

/-- C1 counterexample: the current createStore performs no existence
check. After createStore of the name with value 1 and then with value 2
(persistence disabled throughout), getStoreValue returns 2, not 1, so
the second call did modify the existing record. -/
theorem claim1_counterexample :
    getStoreValue (createStore (createStore initialState "s" (.vnat 1) defaultCreateOptions)
        "s" (.vnat 2) defaultCreateOptions) "s" = .ok (.vnat 2) ∧
    Val.vnat 2 ≠ Val.vnat 1 := by
  refine ⟨rfl, ?_⟩
  simp

/-- C1 amended: re-creating an existing name is not a no-op. The second
createStore call unconditionally replaces the record: with persistence
disabled the value becomes v2, the subscriber set is reset to empty and
the middleware chain is the one given by the second call, and
getStoreValue then returns v2. -/
theorem claim1_createStore_overwrites (s : State) (name : String) (v1 v2 : Val)
    (opts1 : CreateOptions) (mids : List Middleware) (memo : Option Bool)
    (hcfg : s.config.persist = false) :
    assocFind (createStore (createStore s name v1 opts1) name v2
        ⟨none, mids, memo⟩).stores name =
      some ⟨v2, [], mids, memo.getD s.config.defaultMemoize, .noP⟩ ∧
    getStoreValue (createStore (createStore s name v1 opts1) name v2
        ⟨none, mids, memo⟩) name = .ok v2 := by
  have hc : (createStore s name v1 opts1).config = s.config := rfl
  constructor
  · simp [createStore, createPersistOptions, persistTruthy, hc, hcfg, assocFind_assocSet_self]
  · simp [getStoreValue, createStore, createPersistOptions, persistTruthy, hc, hcfg,
      assocFind_assocSet_self]

theorem claim1_witness :
    assocFind (createStore (createStore initialState "s" (.vnat 1) defaultCreateOptions)
        "s" (.vnat 2) ⟨none, [], none⟩).stores "s" =
      some ⟨.vnat 2, [], [], false, .noP⟩ ∧
    getStoreValue (createStore (createStore initialState "s" (.vnat 1) defaultCreateOptions)
        "s" (.vnat 2) ⟨none, [], none⟩) "s" = .ok (.vnat 2) :=
  claim1_createStore_overwrites initialState "s" (.vnat 1) (.vnat 2)
    defaultCreateOptions [] none rfl

/-- C2 confirmed: for a store whose chain holds the pure stages fs in
registration order, a set call that completes commits the left-to-right
fold of fs over the candidate, every stage receiving the pre-call store
value and the store name; in particular for a two-stage chain the
committed value equals m2 (m1 candidate prev name) prev name. -/
theorem claim2_middleware_fold (env : ComputeEnv) (fuel : Nat) (s : State)
    (name : String) (store : StoreRec) (fs : List (Val → Val → String → Val))
    (candidate : Val) (ids : List Nat)
    (m1 m2 : Val → Val → String → Val) (c p : Val) (n : String)
    (hfind : assocFind s.stores name = some store)
    (hmid : store.middleware = fs.map pureMiddleware)
    (hext : externalIds store.reloaders = some ids) :
    assocFind (createSetter env (fuel + 1) name (.lit candidate) s).stores name =
      some { store with value := chainFold fs candidate store.value name } ∧
    chainFold [m1, m2] c p n = m2 (m1 c p n) p n := by
  refine ⟨?_, rfl⟩
  have hchain : applyChain store.middleware candidate store.value name =
      .ok (chainFold fs candidate store.value name) := by
    rw [hmid]
    exact applyChain_pure fs store.value name candidate
  have hrun : ∀ (w : Val) (t : State),
      (runReloaders env (fuel + 1) store.reloaders w t).stores = t.stores := by
    intro w t
    rw [runReloaders_external env fuel store.reloaders ids w t hext]
  cases hps : store.persist with
  | noP => simp [createSetter, hfind, hchain, hps, hrun, assocFind_assocSet_self]
  | boolP => simp [createSetter, hfind, hchain, hps, hrun, assocFind_assocSet_self]
  | optsP o => simp [createSetter, hfind, hchain, hps, hrun, assocFind_assocSet_self]

def c2f1 : Val → Val → String → Val := fun v _ _ =>
  match v with
  | .vstr a => .vstr (a ++ "-a")
  | x => x

def c2f2 : Val → Val → String → Val := fun v _ _ =>
  match v with
  | .vstr a => .vstr (a ++ "-b")
  | x => x

def c2state : State :=
  createStore initialState "s" (.vstr "p") ⟨none, [pureMiddleware c2f1, pureMiddleware c2f2], none⟩

def c2rec : StoreRec :=
  ⟨.vstr "p", [], [pureMiddleware c2f1, pureMiddleware c2f2], false, .noP⟩

theorem claim2_witness :
    assocFind (createSetter [] 1 "s" (.lit (.vstr "x")) c2state).stores "s" =
      some { c2rec with value := chainFold [c2f1, c2f2] (.vstr "x") c2rec.value "s" } ∧
    chainFold [c2f1, c2f2] (.vstr "x") (.vstr "p") "s" =
      c2f2 (c2f1 (.vstr "x") (.vstr "p") "s") (.vstr "p") "s" :=
  claim2_middleware_fold [] 0 c2state "s" c2rec [c2f1, c2f2] (.vstr "x") []
    c2f1 c2f2 (.vstr "x") (.vstr "p") "s" rfl rfl rfl

/-- C3 confirmed: when a middleware stage throws, the setter leaves the
state exactly as it was: no commit, no subscriber notification, no
storage write, and since the conclusion holds for every suffix post of
the chain after the throwing stage, the remaining stages cannot
influence the outcome, hence are not invoked. The setter is a total
function of the state, which models that the returned promise resolves
and the exception does not propagate to the caller. -/
theorem claim3_middleware_exception (env : ComputeEnv) (fuel : Nat) (s : State)
    (name : String) (store : StoreRec) (pre post : List Middleware)
    (bad : Middleware) (candidate w : Val) (e : String)
    (hfind : assocFind s.stores name = some store)
    (hmid : store.middleware = pre ++ bad :: post)
    (hpre : applyChain pre candidate store.value name = .ok w)
    (hbad : bad w store.value name = .error e) :
    createSetter env fuel name (.lit candidate) s = s := by
  have hchain : applyChain store.middleware candidate store.value name = .error e := by
    rw [hmid, applyChain_append, hpre]
    simp [applyChain, hbad]
  simp [createSetter, hfind, hchain]

def c3bad : Middleware := fun _ _ _ => .error "boom"

def c3state : State :=
  createStore initialState "s" (.vnat 0) ⟨none, [c3bad, pureMiddleware c2f1], none⟩

def c3rec : StoreRec := ⟨.vnat 0, [], [c3bad, pureMiddleware c2f1], false, .noP⟩

theorem claim3_witness :
    createSetter [] 1 "s" (.lit (.vnat 7)) c3state = c3state :=
  claim3_middleware_exception [] 1 c3state "s" c3rec [] [pureMiddleware c2f1] c3bad
    (.vnat 7) (.vnat 7) "boom" rfl rfl rfl rfl

/-- C4 confirmed: on a name with no registry entry, getStoreValue,
addMiddleware and action dispatch throw, while the setter is a silent
no-op returning the state unchanged: no store modified, no subscriber
notified, nothing written to storage. -/
theorem claim4_missing_store (env : ComputeEnv) (fuel : Nat) (s : State)
    (name : String) (m : Middleware) (arg : SetArg)
    (handler : Val → String → Option Val → Val) (ty : String) (payload : Option Val)
    (h : assocFind s.stores name = none) :
    getStoreValue s name = .error ("Store with name " ++ name ++ " does not exist.") ∧
    addMiddleware s name m = .error ("Store with name " ++ name ++ " does not exist.") ∧
    actionDispatch env fuel name handler ty payload s =
      .error ("Store with name " ++ name ++
        " does not exist. Please ensure the store is initialized before dispatching actions.") ∧
    createSetter env fuel name arg s = s := by
  refine ⟨?_, ?_, ?_, ?_⟩ <;>
    simp [getStoreValue, addMiddleware, actionDispatch, createSetter, h]

theorem claim4_witness :
    getStoreValue initialState "ghost" =
      .error ("Store with name " ++ "ghost" ++ " does not exist.") ∧
    addMiddleware initialState "ghost" c3bad =
      .error ("Store with name " ++ "ghost" ++ " does not exist.") ∧
    actionDispatch [] 1 "ghost" (fun v _ _ => v) "t" none initialState =
      .error ("Store with name " ++ "ghost" ++
        " does not exist. Please ensure the store is initialized before dispatching actions.") ∧
    createSetter [] 1 "ghost" (.lit (.vnat 1)) initialState = initialState :=
  claim4_missing_store [] 1 initialState "ghost" c3bad (.lit (.vnat 1))
    (fun v _ _ => v) "t" none rfl

/-! ### Claims C5 and C6 -/

def c5mig : Val → Nat → Val := fun v sv =>
  .vobj [("migrated", .vbool true), ("old", v), ("storedVersion", .vnat sv)]

/-- C5 counterexample: with requested version 0 (a value the options
type admits), a stored envelope at version 1 and a migrate function
supplied, the source guard treats the requested version as falsy and
skips migration: migrate is not invoked and the stored value is returned
unmodified, although the stored version differs from the requested one
and a migrate function is supplied — refuting the stated iff. -/
theorem claim5_counterexample :
    (retrievePersistedStore "s" ⟨some 0, some c5mig⟩
        [("pulsy_s", .envelope (.vnat 7) 1)]).migrateInvoked = false ∧
    (retrievePersistedStore "s" ⟨some 0, some c5mig⟩
        [("pulsy_s", .envelope (.vnat 7) 1)]).value = some (.vnat 7) ∧
    (retrievePersistedStore "s" ⟨some 0, some c5mig⟩
        [("pulsy_s", .envelope (.vnat 7) 1)]).storage =
      [("pulsy_s", .envelope (.vnat 7) 1)] ∧
    (1 : Nat) ≠ (0 : Nat) ∧
    (some c5mig).isSome = true := by
  refine ⟨rfl, rfl, rfl, by decide, rfl⟩

/-- C5 amended: for a retrieval that finds a persisted envelope, migrate
is invoked iff the effective requested version (options.version, 1 when
unspecified) is nonzero, the stored version differs from it, and a
migrate function is supplied. When invoked, migrate receives the raw
stored value and the stored version, the result is immediately
re-persisted at the requested version, and a repeated retrieval at the
same requested version does not invoke migrate again and returns the
migrated value. When the versions agree, the requested version is 0, or
no migrate function is supplied, the stored value is returned unmodified
and the storage is untouched. -/
theorem claim5_migration_characterized (name : String) (options : PersistenceOptions)
    (st : Storage) (v : Val) (storedVersion : Nat)
    (h : assocFind st ("pulsy_" ++ name) = some (.envelope v storedVersion)) :
    ((retrievePersistedStore name options st).migrateInvoked = true ↔
      (options.version.getD 1 ≠ 0 ∧ storedVersion ≠ options.version.getD 1 ∧
        options.migrate.isSome = true)) ∧
    (∀ f, options.migrate = some f → options.version.getD 1 ≠ 0 →
      storedVersion ≠ options.version.getD 1 →
      ((retrievePersistedStore name options st).value = some (f v storedVersion) ∧
       (retrievePersistedStore name options st).storage =
         persistStore name (f v storedVersion)
           { options with version := some (options.version.getD 1) } st ∧
       (retrievePersistedStore name options
           (retrievePersistedStore name options st).storage).migrateInvoked = false ∧
       (retrievePersistedStore name options
           (retrievePersistedStore name options st).storage).value =
         some (f v storedVersion))) ∧
    ((storedVersion = options.version.getD 1 ∨ options.version.getD 1 = 0 ∨
        options.migrate = none) →
      ((retrievePersistedStore name options st).value = some v ∧
       (retrievePersistedStore name options st).storage = st ∧
       (retrievePersistedStore name options st).migrateInvoked = false)) := by
  cases hm : options.migrate with
  | none =>
    refine ⟨?_, ?_, ?_⟩
    · simp [retrievePersistedStore, h, hm]
    · intro f hf
      cases hf
    · intro _
      simp [retrievePersistedStore, h, hm]
  | some f0 =>
    by_cases hv : options.version.getD 1 ≠ 0 ∧ storedVersion ≠ options.version.getD 1
    · have hr : retrievePersistedStore name options st =
          ⟨some (f0 v storedVersion),
           persistStore name (f0 v storedVersion)
             { options with version := some (options.version.getD 1) } st,
           true⟩ := by
        simp [retrievePersistedStore, h, hm, hv]
      have hkey : assocFind (persistStore name (f0 v storedVersion)
            ⟨some (options.version.getD 1), some f0⟩ st)
            ("pulsy_" ++ name) =
          some (.envelope (f0 v storedVersion) (options.version.getD 1)) := by
        simp [persistStore, writtenVersion, assocFind_assocSet_self, hv.1]
      refine ⟨?_, ?_, ?_⟩
      · simp [hr, hv.1, hv.2, hm]
      · intro f hf h0 hne
        cases hf
        refine ⟨by rw [hr], by rw [hr, hm], ?_, ?_⟩
        · rw [hr, hm]
          simp [retrievePersistedStore, hkey, hm]
        · rw [hr, hm]
          simp [retrievePersistedStore, hkey, hm]
      · intro hdisj
        rcases hdisj with h1 | h1 | h1
        · exact absurd h1 hv.2
        · exact absurd h1 hv.1
        · cases h1
    · have hr : retrievePersistedStore name options st = ⟨some v, st, false⟩ := by
        simp only [retrievePersistedStore, h, hm]
        rw [if_neg hv]
      refine ⟨?_, ?_, ?_⟩
      · constructor
        · intro hfalse
          rw [hr] at hfalse
          simp at hfalse
        · intro hcon
          exact absurd ⟨hcon.1, hcon.2.1⟩ hv
      · intro f hf h0 hne
        exact absurd ⟨h0, hne⟩ hv
      · intro _
        simp [hr]

theorem claim5_witness :
    (retrievePersistedStore "s" ⟨some 2, some c5mig⟩
        [("pulsy_s", .envelope (.vnat 7) 1)]).migrateInvoked = true ∧
    (retrievePersistedStore "s" ⟨some 2, some c5mig⟩
        [("pulsy_s", .envelope (.vnat 7) 1)]).value = some (c5mig (.vnat 7) 1) ∧
    (retrievePersistedStore "s" ⟨some 2, some c5mig⟩
        (retrievePersistedStore "s" ⟨some 2, some c5mig⟩
          [("pulsy_s", .envelope (.vnat 7) 1)]).storage).migrateInvoked = false := by
  have h := claim5_migration_characterized "s" ⟨some 2, some c5mig⟩
    [("pulsy_s", .envelope (.vnat 7) 1)] (.vnat 7) 1 rfl
  refine ⟨h.1.mpr ⟨by decide, by decide, rfl⟩, ?_, ?_⟩
  · exact (h.2.1 c5mig rfl (by decide) (by decide)).1
  · exact (h.2.1 c5mig rfl (by decide) (by decide)).2.2.1

/-- The object-valued options the setter re-persist uses, as a function
of the stored persist field: none when persistence is off, the empty
options when the field is the boolean true, the object itself when the
field holds options. -/
def persistReOptions : PersistSetting → Option PersistenceOptions
  | .noP => none
  | .boolP => some emptyPersistenceOptions
  | .optsP o => some o

def c6state : State := createStore initialState "s" (.vnat 1) ⟨some (.inl true), [], none⟩

def c6rec : StoreRec := ⟨.vnat 1, [], [], false, .boolP⟩

def c6res : Except String (State × String × Option Val) :=
  actionDispatch [] 1 "s" (fun _ _ _ => .vnat 9) "inc" none c6state

/-- C6 counterexample: dispatching an action on a persisted store writes
the bare serialized state at the un-prefixed store name key (while the
creation-time envelope at the namespaced key is left stale), refuting
that every core persistence write is an envelope at the namespaced
key. -/
theorem claim6_counterexample :
    c6res.toOption.map (fun x => assocFind x.1.storage "s") =
      some (some (.bare (.vnat 9))) ∧
    c6res.toOption.map (fun x => assocFind x.1.storage ("pulsy_" ++ "s")) =
      some (some (.envelope (.vnat 1) 1)) ∧
    "s" ≠ "pulsy_" ++ "s" := by
  refine ⟨rfl, rfl, by decide⟩

/-- C6 amended: the persistence writes of store creation and of the
setter re-persist step go to the namespaced key as the envelope with the
value and version fields, touching no other key; the persistence write
of action dispatch instead stores the bare serialized state at the
un-prefixed store name key. -/
theorem claim6_persistence_layout
    (s1 : State) (name1 : String) (v1 : Val) (opts1 : CreateOptions)
    (env2 : ComputeEnv) (fuel2 : Nat) (s2 : State) (name2 : String) (store2 : StoreRec)
    (candidate2 w2 : Val) (o2 : PersistenceOptions)
    (env3 : ComputeEnv) (fuel3 : Nat) (s3 : State) (name3 : String) (store3 : StoreRec)
    (handler3 : Val → String → Option Val → Val) (ty3 : String) (payload3 : Option Val)
    (h1 : (persistTruthy opts1.persist || s1.config.persist) = true)
    (h2a : assocFind s2.stores name2 = some store2)
    (h2b : applyChain store2.middleware candidate2 store2.value name2 = .ok w2)
    (h2c : persistReOptions store2.persist = some o2)
    (h3a : assocFind s3.stores name3 = some store3)
    (h3b : store3.persist ≠ .noP) :
    (assocFind (createStore s1 name1 v1 opts1).storage ("pulsy_" ++ name1) =
      some (.envelope
        ((retrievePersistedStore name1 (createPersistOptions opts1) s1.storage).value.getD v1)
        (writtenVersion (createPersistOptions opts1))) ∧
     ∀ k, k ≠ "pulsy_" ++ name1 →
       assocFind (createStore s1 name1 v1 opts1).storage k = assocFind s1.storage k) ∧
    (assocFind (createSetter env2 fuel2 name2 (.lit candidate2) s2).storage
        ("pulsy_" ++ name2) = some (.envelope w2 (writtenVersion o2)) ∧
     ∀ k, k ≠ "pulsy_" ++ name2 →
       assocFind (createSetter env2 fuel2 name2 (.lit candidate2) s2).storage k =
         assocFind s2.storage k) ∧
    ((actionDispatch env3 fuel3 name3 handler3 ty3 payload3 s3).toOption.map
        (fun x => x.1.storage) =
      some (assocSet s3.storage name3 (.bare (handler3 store3.value ty3 payload3)))) := by
  refine ⟨⟨?_, ?_⟩, ⟨?_, ?_⟩, ?_⟩
  · simp [createStore, h1, persistStore, assocFind_assocSet_self]
  · intro k hk
    simp [createStore, h1, persistStore, assocFind_assocSet_ne _ _ _ _ (Ne.symm hk),
      retrievePersistedStore_frame _ _ _ _ hk]
  · cases hps : store2.persist with
    | noP => rw [hps] at h2c; cases h2c
    | boolP =>
      rw [hps] at h2c
      cases h2c
      simp [createSetter, h2a, h2b, hps, persistStore, runReloaders_storage,
        assocFind_assocSet_self]
    | optsP o =>
      rw [hps] at h2c
      cases h2c
      simp [createSetter, h2a, h2b, hps, persistStore, runReloaders_storage,
        assocFind_assocSet_self]
  · intro k hk
    cases hps : store2.persist with
    | noP => rw [hps] at h2c; cases h2c
    | boolP =>
      rw [hps] at h2c
      cases h2c
      simp [createSetter, h2a, h2b, hps, persistStore, runReloaders_storage,
        assocFind_assocSet_ne _ _ _ _ (Ne.symm hk)]
    | optsP o =>
      rw [hps] at h2c
      cases h2c
      simp [createSetter, h2a, h2b, hps, persistStore, runReloaders_storage,
        assocFind_assocSet_ne _ _ _ _ (Ne.symm hk)]
  · cases hps : store3.persist with
    | noP => exact absurd hps h3b
    | boolP =>
      simp only [actionDispatch, h3a, hps, Except.toOption, Option.map]
      rw [runReloaders_storage]
    | optsP o =>
      simp only [actionDispatch, h3a, hps, Except.toOption, Option.map]
      rw [runReloaders_storage]

theorem claim6_witness :
    assocFind (createStore initialState "s" (.vnat 3) ⟨some (.inl true), [], none⟩).storage
      ("pulsy_" ++ "s") = some (.envelope (.vnat 3) 1) ∧
    assocFind (createSetter [] 1 "s" (.lit (.vnat 4)) c6state).storage ("pulsy_" ++ "s") =
      some (.envelope (.vnat 4) 1) ∧
    (actionDispatch [] 1 "s" (fun _ _ _ => .vnat 9) "inc" none c6state).toOption.map
      (fun x => x.1.storage) = some (assocSet c6state.storage "s" (.bare (.vnat 9))) := by
  have h := claim6_persistence_layout initialState "s" (.vnat 3) ⟨some (.inl true), [], none⟩
    [] 1 c6state "s" c6rec (.vnat 4) (.vnat 4) emptyPersistenceOptions
    [] 1 c6state "s" c6rec (fun _ _ _ => .vnat 9) "inc" none
    rfl rfl rfl rfl rfl (by simp [c6rec])
  exact ⟨h.1.1, h.2.1.1, h.2.2⟩

/-! ### Claims C7 and C8 -/

/-- The aggregate the diff-and-recombine callback rebuilds: the current
values of the existing constituents, keyed by the logical field names. -/
def composedEntries (s : State) (storeMap : List (String × String)) : List (String × Val) :=
  storeMap.filterMap (fun kv =>
    (assocFind s.stores kv.2).map (fun store => (kv.1, store.value)))

/-- The diff the callback performs: some rebuilt entry differs from the
creation-time snapshot entry under the same key (a key with no snapshot
entry counts as changed). -/
def composedChanged (s : State) (storeMap : List (String × String))
    (snapshot : List (String × Val)) : Bool :=
  (composedEntries s storeMap).any (fun kv =>
    match assocFind snapshot kv.1 with
    | some old => !(Val.beq kv.2 old)
    | none => true)

theorem runReloader_composed (env : ComputeEnv) (fuel : Nat) (target : String)
    (storeMap : List (String × String)) (snapshot : List (String × Val))
    (w : Val) (s : State) :
    runReloader env (fuel + 1) (.composed target storeMap snapshot) w s =
      (if composedChanged s storeMap snapshot then
        match assocFind s.stores target with
        | none => s
        | some store =>
          runReloaders env fuel store.reloaders (.vobj (composedEntries s storeMap))
            { s with stores := assocSet s.stores target { store with value := .vobj (composedEntries s storeMap) } }
      else s) := rfl

def vdouble : Val → Val
  | .vnat n => .vnat (2 * n)
  | v => v

def c7mid : Middleware := fun v _ _ => .ok (vdouble v)

def c7s2 : State :=
  subscribe (composeStores (createStore initialState "x" (.vnat 1) ⟨none, [c7mid], none⟩)
    "agg" [("xv", "x")]) "agg" 0

def c7s3 : State := setComposedStore [] 2 [("xv", "x")] [("xv", .vnat 5)] c7s2

def c7s4 : State := setComposedStore [] 2 [("xv", "x")] [("xv", .vnat 5)] c7s3

/-- C7 counterexample: constituent store x has a doubling middleware and
initial value 1; the aggregate agg is composed over it and has one
external subscriber. Applying the field update xv to 5 through the
composed setter commits 5 to x, whereas the store setter of x commits 10
(the middleware stage), so the composed setter does not forward through
the constituent setter. Applying the same field update a second time
republishes the aggregate again (two identical subscriber notifications)
although no constituent value changed since the previous republish,
because the diff compares against the creation-time snapshot only. -/
theorem claim7_counterexample :
    (assocFind c7s4.stores "x").map (fun r => r.value) = some (.vnat 5) ∧
    (assocFind (createSetter [] 2 "x" (.lit (.vnat 5)) c7s2).stores "x").map
      (fun r => r.value) = some (.vnat 10) ∧
    Val.vnat 5 ≠ Val.vnat 10 ∧
    c7s4.events = [(0, .vobj [("xv", .vnat 5)]), (0, .vobj [("xv", .vnat 5)])] := by
  refine ⟨rfl, rfl, ?_, rfl⟩
  simp

/-- C7 amended: the composed setter applies each field of a partial
update by writing the matching constituent store value directly and
notifying that constituent subscribers, bypassing the constituent
middleware chain and persistence (it does not go through the constituent
store own setter), and it never writes the aggregate store value
directly; the aggregate republishes (commits a rebuilt aggregate and
notifies its subscribers) exactly when at least one constituent current
value differs, by the modelled reference inequality, from the
creation-time snapshot captured when the composed store was built. -/
theorem claim7_composed_semantics
    (env : ComputeEnv) (fuel : Nat) (s : State) (target : String)
    (storeMap : List (String × String)) (snapshot : List (String × Val))
    (tr : StoreRec) (tids : List Nat)
    (env2 : ComputeEnv) (fuel2 : Nat) (s2 : State) (map2 : List (String × String))
    (k srcName : String) (v : Val) (sr : StoreRec) (sids : List Nat)
    (htgt : assocFind s.stores target = some tr)
    (htids : externalIds tr.reloaders = some tids)
    (hk : assocFind map2 k = some srcName)
    (hsrc : assocFind s2.stores srcName = some sr)
    (hsids : externalIds sr.reloaders = some sids) :
    (composedChanged s storeMap snapshot = false →
      ∀ w, runReloader env (fuel + 1 + 1) (.composed target storeMap snapshot) w s = s) ∧
    (composedChanged s storeMap snapshot = true →
      ∀ w, runReloader env (fuel + 1 + 1) (.composed target storeMap snapshot) w s =
        { s with
            stores := assocSet s.stores target
              { tr with value := .vobj (composedEntries s storeMap) },
            events := s.events ++ tids.map (fun i =>
              (i, Val.vobj (composedEntries s storeMap))) }) ∧
    setComposedStore env2 (fuel2 + 1) map2 [(k, v)] s2 =
      { s2 with
          stores := assocSet s2.stores srcName { sr with value := v },
          events := s2.events ++ sids.map (fun i => (i, v)) } := by
  refine ⟨?_, ?_, ?_⟩
  · intro hch w
    rw [runReloader_composed, hch]
    simp
  · intro hch w
    rw [runReloader_composed, hch, if_pos rfl, htgt]
    dsimp only
    rw [runReloaders_external env fuel tr.reloaders tids _ _ htids]
  · simp only [setComposedStore, List.foldl_cons, List.foldl_nil]
    rw [hk]
    dsimp only
    rw [hsrc]
    dsimp only
    rw [runReloaders_external env2 fuel2 sr.reloaders sids _ _ hsids]

def c7aggRec : StoreRec := ⟨.vobj [("xv", .vnat 1)], [.external 0], [], false, .noP⟩

def c7y : State :=
  subscribe (createStore initialState "y" (.vnat 1) ⟨none, [c7mid], none⟩) "y" 7

def c7yRec : StoreRec := ⟨.vnat 1, [.external 7], [c7mid], false, .noP⟩

theorem claim7_witness :
    composedChanged c7s2 [("xv", "x")] [("xv", .vnat 1)] = false ∧
    runReloader [] 3 (.composed "agg" [("xv", "x")] [("xv", .vnat 1)]) .vnull c7s2 = c7s2 ∧
    setComposedStore [] 2 [("k", "y")] [("k", .vnat 5)] c7y =
      { c7y with
          stores := assocSet c7y.stores "y" ⟨.vnat 5, [.external 7], [c7mid], false, .noP⟩,
          events := c7y.events ++ [(7, .vnat 5)] } := by
  have h := claim7_composed_semantics [] 1 c7s2 "agg" [("xv", "x")] [("xv", .vnat 1)]
    c7aggRec [0] [] 1 c7y [("k", "y")] "k" "y" (.vnat 5) c7yRec [7] rfl rfl rfl rfl rfl
  exact ⟨rfl, h.1 rfl .vnull, h.2.2⟩


def ttScenarioStart : TimeTravel × State :=
  (TimeTravel.init (.vnat 0), createStore initialState "c" (.vnat 0) defaultCreateOptions)

def ttScenarioMid : TimeTravel × State :=
  [TTOp.set (.vnat 1), TTOp.set (.vnat 2), TTOp.undo, TTOp.undo].foldl
    (ttRunStore [] 1 "c") ttScenarioStart

def ttScenarioEnd : TimeTravel × State :=
  [TTOp.set (.vnat 5), TTOp.redo].foldl (ttRunStore [] 1 "c") ttScenarioMid

/-- The branch-discard scenario of the claim: history 0,1,2 at cursor 2,
two undos reach cursor 0 with the store replayed to 0, applying 5 yields
history 0,5 at cursor 1 with the store at 5, and a subsequent redo is a
no-op. -/
def ttScenario : Prop :=
  ttScenarioMid.1.history = [.vnat 0, .vnat 1, .vnat 2] ∧
  ttScenarioMid.1.position = 0 ∧
  getStoreValue ttScenarioMid.2 "c" = .ok (.vnat 0) ∧
  ttScenarioEnd.1.history = [.vnat 0, .vnat 5] ∧
  ttScenarioEnd.1.position = 1 ∧
  getStoreValue ttScenarioEnd.2 "c" = .ok (.vnat 5) ∧
  ttStep ttScenarioEnd.1 .redo = (ttScenarioEnd.1, none)

theorem ttScenarioHolds : ttScenario :=
  ⟨rfl, rfl, rfl, rfl, rfl, rfl, rfl⟩

/-- C8 confirmed: the cursor is always a valid history index, after one
operation from any state satisfying the invariant and along any
operation sequence from the initial wrapper state; applying a value
while the cursor is not at the end truncates the history to the
positions up to the cursor inclusive, appends the value and advances the
cursor; undo is a no-op at cursor 0 and otherwise only decrements the
cursor and replays the history entry at the new cursor through the store
setter; redo is a no-op at the last position and otherwise only
increments the cursor and replays the history entry at the new cursor;
neither appends history entries. The concrete branch-discard scenario
from history 0,1,2 at cursor 2 is included, driven through a real
store. -/
theorem claim8_time_travel (t : TimeTravel) (v v0 : Val) (hinv : ttInvariant t) :
    (∀ op, ttInvariant (ttStep t op).1) ∧
    (∀ ops : List TTOp,
      ttInvariant (ops.foldl (fun a op => (ttStep a op).1) (TimeTravel.init v0))) ∧
    ttStep t (.set v) =
      (⟨t.history.take (t.position + 1) ++ [v], t.position + 1⟩, some v) ∧
    (t.position = 0 → ttStep t .undo = (t, none)) ∧
    (0 < t.position → ttStep t .undo =
      (⟨t.history, t.position - 1⟩, some (t.history.getD (t.position - 1) .vnull))) ∧
    (t.position = t.history.length - 1 → ttStep t .redo = (t, none)) ∧
    (t.position < t.history.length - 1 → ttStep t .redo =
      (⟨t.history, t.position + 1⟩, some (t.history.getD (t.position + 1) .vnull))) ∧
    (ttStep t .undo).1.history = t.history ∧
    (ttStep t .redo).1.history = t.history ∧
    ttScenario := by
  refine ⟨fun op => ttInvariant_step t op hinv, fun ops => ttInvariant_run v0 ops,
    rfl, ?_, ?_, ?_, ?_, ?_, ?_, ttScenarioHolds⟩
  · intro h0
    simp [ttStep, h0]
  · intro h0
    simp [ttStep, h0]
  · intro hend
    have : ¬ t.position < t.history.length - 1 := by omega
    simp [ttStep, this]
  · intro hlt
    simp [ttStep, hlt]
  · rw [ttStep]
    split
    · rfl
    · rfl
  · rw [ttStep]
    split
    · rfl
    · rfl

/-! ### Claims C9 and C10 -/

theorem claim8_witness :
    ttInvariant (⟨[Val.vnat 0], 0⟩ : TimeTravel) ∧
    ttStep (⟨[Val.vnat 0], 0⟩ : TimeTravel) (.set (.vnat 1)) =
      (⟨[Val.vnat 0, Val.vnat 1], 1⟩, some (.vnat 1)) ∧
    ttScenario := by
  have hinv : ttInvariant (⟨[Val.vnat 0], 0⟩ : TimeTravel) := by
    simp [ttInvariant]
  have h := claim8_time_travel ⟨[Val.vnat 0], 0⟩ (.vnat 1) .vnull hinv
  exact ⟨hinv, h.2.2.1, h.2.2.2.2.2.2.2.2.2⟩

theorem foldl_runReloader_eq (env : ComputeEnv) (fuel : Nat) (rs : List Reloader)
    (v : Val) (s : State) :
    rs.foldl (fun acc r => runReloader env fuel r v acc) s = runReloaders env fuel rs v s := rfl

def c9env : ComputeEnv :=
  [fun reg => match regValue reg "price", regValue reg "quantity" with
    | .vnat a, .vnat b => .vnat (a * b)
    | _, _ => .vnull]

def c9base : State :=
  createStore (createStore initialState "price" (.vnat 100) defaultCreateOptions)
    "quantity" (.vnat 2) defaultCreateOptions

def c9s1 : State := createComputedStore c9env c9base "total" 0 ["price", "quantity"]

/-- The concrete recompute scenario of the claim: total is the product
of price and quantity; it reads 200 after creation and 300 after setting
quantity to 3, with no set call ever issued on total. -/
def c9scenario : Prop :=
  getStoreValue c9s1 "total" = .ok (.vnat 200) ∧
  getStoreValue (setStoreValue c9env 2 "quantity" (.vnat 3) c9s1) "total" = .ok (.vnat 300)

theorem c9scenarioHolds : c9scenario := ⟨rfl, rfl⟩

theorem createSetter_ok_parts (env : ComputeEnv) (fuel : Nat) (name : String)
    (candidate w : Val) (s : State) (store : StoreRec)
    (hfind : assocFind s.stores name = some store)
    (hchain : applyChain store.middleware candidate store.value name = .ok w) :
    (createSetter env fuel name (.lit candidate) s).stores =
      (runReloaders env fuel store.reloaders w
        { s with stores := assocSet s.stores name { store with value := w } }).stores ∧
    (createSetter env fuel name (.lit candidate) s).events =
      (runReloaders env fuel store.reloaders w
        { s with stores := assocSet s.stores name { store with value := w } }).events := by
  cases hps : store.persist with
  | noP => simp [createSetter, hfind, hchain, hps]
  | boolP => simp [createSetter, hfind, hchain, hps]
  | optsP o => simp [createSetter, hfind, hchain, hps]

/-- C9 confirmed: under the default configuration (global persistence
off) the backing store of a computed store is initialized to the compute
function evaluated on the registry at creation; and when a dependency
store, carrying the registered recompute callback after its external
subscribers, commits a new value through the setter, the computed store
value equals the compute function evaluated on the registry holding the
dependency new value, and the computed store external subscribers are
notified with that value — all without any set call on the computed
store (the recompute writes the record directly). The price and quantity
scenario is included. -/
theorem claim9_computed_store
    (env0 : ComputeEnv) (s0 : State) (name0 : String) (fid0 : Nat) (deps0 : List String)
    (env : ComputeEnv) (fuel : Nat) (s : State) (dep tgt : String) (fid : Nat) (v : Val)
    (dr tr : StoreRec) (drExts : List Reloader) (ids tids : List Nat)
    (hcfg : s0.config.persist = false)
    (hdep : assocFind s.stores dep = some dr)
    (hdrl : dr.reloaders = drExts ++ [.computed tgt fid])
    (hexts : externalIds drExts = some ids)
    (hmids : dr.middleware = [])
    (htgt : assocFind s.stores tgt = some tr)
    (htids : externalIds tr.reloaders = some tids)
    (hne : dep ≠ tgt) :
    ((assocFind (createComputedStore env0 s0 name0 fid0 deps0).stores name0).map
        (fun r => r.value) =
      some ((env0.getD fid0 (fun _ => .vnull)) s0.stores)) ∧
    ((assocFind (createSetter env (fuel + 1 + 1) dep (.lit v) s).stores tgt).map
        (fun r => r.value) =
      some ((env.getD fid (fun _ => .vnull))
        (assocSet s.stores dep { dr with value := v }))) ∧
    ((assocFind (createSetter env (fuel + 1 + 1) dep (.lit v) s).stores dep).map
        (fun r => r.value) = some v) ∧
    ((createSetter env (fuel + 1 + 1) dep (.lit v) s).events =
      s.events ++ ids.map (fun i => (i, v)) ++ tids.map (fun i =>
        (i, (env.getD fid (fun _ => .vnull)) (assocSet s.stores dep { dr with value := v })))) ∧
    c9scenario := by
  have hinit : (assocFind (createComputedStore env0 s0 name0 fid0 deps0).stores name0).map
      (fun r => r.value) = some ((env0.getD fid0 (fun _ => .vnull)) s0.stores) := by
    simp only [createComputedStore]
    rw [registerComputedFold_value]
    simp [createStore, createPersistOptions, persistTruthy, defaultCreateOptions, hcfg,
      assocFind_assocSet_self]
  have happ : applyChain dr.middleware v dr.value dep = .ok v := by
    rw [hmids]
    rfl
  have step1 : runReloaders env (fuel + 1 + 1) dr.reloaders v
      { s with stores := assocSet s.stores dep { dr with value := v } } =
      State.mk
        (assocSet (assocSet s.stores dep { dr with value := v }) tgt { tr with value := (env.getD fid (fun _ => .vnull)) (assocSet s.stores dep { dr with value := v }) })
        s.storage
        (s.events ++ ids.map (fun i => (i, v)) ++ tids.map (fun i => (i, (env.getD fid (fun _ => .vnull)) (assocSet s.stores dep { dr with value := v }))))
        s.config := by
    rw [hdrl, runReloaders_append]
    rw [runReloaders_external env (fuel + 1) drExts ids v _ hexts]
    rw [runReloaders_cons, runReloaders_nil]
    simp only [runReloader]
    rw [assocFind_assocSet_ne _ _ _ _ hne, htgt]
    dsimp only
    rw [foldl_runReloader_eq]
    rw [runReloaders_external env fuel tr.reloaders tids _ _ htids]
  have hmain : (createSetter env (fuel + 1 + 1) dep (.lit v) s).stores =
      assocSet (assocSet s.stores dep { dr with value := v }) tgt { tr with value := (env.getD fid (fun _ => .vnull)) (assocSet s.stores dep { dr with value := v }) } ∧
      (createSetter env (fuel + 1 + 1) dep (.lit v) s).events =
      s.events ++ ids.map (fun i => (i, v)) ++ tids.map (fun i => (i, (env.getD fid (fun _ => .vnull)) (assocSet s.stores dep { dr with value := v }))) := by
    have hp := createSetter_ok_parts env (fuel + 1 + 1) dep v v s dr hdep happ
    rw [hp.1, hp.2, step1]
    exact ⟨rfl, rfl⟩
  refine ⟨hinit, ?_, ?_, hmain.2, c9scenarioHolds⟩
  · rw [hmain.1]
    simp [assocFind_assocSet_self]
  · rw [hmain.1]
    rw [assocFind_assocSet_ne _ _ _ _ (Ne.symm hne), assocFind_assocSet_self]
    rfl

theorem claim9_witness :
    ((assocFind (createSetter c9env 2 "quantity" (.lit (.vnat 3)) c9s1).stores "total").map
      (fun r => r.value) = some (.vnat 300)) ∧
    ((assocFind (createSetter c9env 2 "quantity" (.lit (.vnat 3)) c9s1).stores "quantity").map
      (fun r => r.value) = some (.vnat 3)) ∧
    c9scenario := by
  have h := claim9_computed_store c9env c9base "total" 0 ["price", "quantity"]
    c9env 0 c9s1 "quantity" "total" 0 (.vnat 3)
    ⟨.vnat 2, [.computed "total" 0], [], false, .noP⟩
    ⟨.vnat 200, [], [], false, .noP⟩ [] [] []
    rfl rfl rfl rfl rfl rfl rfl (by decide)
  exact ⟨h.2.1, h.2.2.1, h.2.2.2.2⟩

/-- C10 confirmed: a dependency-triggered recomputation (the interpreted
recompute callback) never changes the storage backend, whatever the
state and in particular whatever the persist flag of the target store —
unlike the setter path, which after committing re-persists the envelope
at the namespaced key when the persist flag is set. The persisted copy
of a computed store can therefore only reflect its creation-time
value. -/
theorem claim10_computed_no_persist
    (env : ComputeEnv) (fuel : Nat) (target : String) (fid : Nat) (w : Val) (s : State)
    (env2 : ComputeEnv) (fuel2 : Nat) (s2 : State) (name2 : String) (store2 : StoreRec)
    (candidate2 w2 : Val)
    (h2a : assocFind s2.stores name2 = some store2)
    (h2b : applyChain store2.middleware candidate2 store2.value name2 = .ok w2)
    (h2c : store2.persist = .boolP) :
    (runReloader env fuel (.computed target fid) w s).storage = s.storage ∧
    assocFind (createSetter env2 fuel2 name2 (.lit candidate2) s2).storage
      ("pulsy_" ++ name2) = some (.envelope w2 1) := by
  refine ⟨runReloader_storage env fuel _ w s, ?_⟩
  simp [createSetter, h2a, h2b, h2c, persistStore, writtenVersion, emptyPersistenceOptions,
    runReloaders_storage, assocFind_assocSet_self]

def c10state : State := createStore initialState "p" (.vnat 1) ⟨some (.inl true), [], none⟩

theorem claim10_witness :
    (runReloader [] 1 (.computed "t" 0) .vnull c10state).storage = c10state.storage ∧
    assocFind (createSetter [] 1 "p" (.lit (.vnat 4)) c10state).storage ("pulsy_" ++ "p") =
      some (.envelope (.vnat 4) 1) :=
  claim10_computed_no_persist [] 1 "t" 0 .vnull c10state [] 1 c10state "p"
    ⟨.vnat 1, [], [], false, .boolP⟩ (.vnat 4) (.vnat 4) rfl rfl rfl

end Pulsy
